import Mathlib

/-!
Verification of the pairing protocol engine of `waltid-siwx`
(`src/contexts/SharedCoreContext.tsx`).

The engine is embedded shallowly: JavaScript objects become Lean structures,
each engine operation becomes a pure function from an explicit `EngineState`
(holding the pairing store, the crypto keychain, the relayer subscription set
and the expirer schedule) to a new state, together with the ordered list of
collaborator calls it performed (`Effect` trace) and its outcome
(`Except PairingError`).  `Date.now()` becomes an explicit `now : Nat`
parameter (seconds), and the randomly generated symmetric key / derived topic
of `create` become explicit parameters.

External collaborators (CryptoProvider, Relayer, Expirer) are modelled at
their interface boundary as components of `EngineState`; the pairing store
controller (`src/controllers/store`, not part of the sources) is modelled
from the spec as a keyed map with `set` / `get` / `update` / `delete` /
`keys` / `values` semantics, `update` failing on an unknown key.

JavaScript exceptions become `Except.error`; note that a thrown exception
does *not* roll back state mutations already performed, so every operation
returns its (possibly mutated) state alongside the error.  `async` calls made
without `await` (as in the inbound request handlers) are modelled by running
the callee for its state effects while discarding its rejection, which is the
control-flow outcome in JavaScript (the surrounding `try`/`catch` never sees
the rejection of an un-awaited promise).
-/

namespace WaltidSiwx

/-- Application-supplied peer descriptor (`CoreTypes.Metadata`). -/
structure Metadata where
  name : String
  description : String
  url : String
  icons : List String
deriving DecidableEq, Repr

/-- A pairing record as built by `create` / `pair`:
`{ topic, relay: { protocol }, expiry, active }`, with the optional
`peerMetadata` field settable later by `updateMetadata`. -/
structure Pairing where
  topic : String
  relayProtocol : String
  expiry : Nat
  active : Bool
  peerMetadata : Option Metadata
deriving DecidableEq, Repr

/-- Error taxonomy of the engine (`getInternalError` codes plus the two
`pair()` collision errors thrown directly). -/
inductive PairingError where
  | NotInitialized
  | MissingOrInvalid
  | NoMatchingKey
  | Expired
  | PairingAlreadyExists
  | KeychainAlreadyExists
deriving DecidableEq, Repr

/-- One collaborator call, recorded in program order.  `publish t m` covers
`sendRequest` / `sendResult` / `sendError` (the relayer publish of a message
with method tag `m` on topic `t`). -/
inductive Effect where
  | subscribe (topic : String)
  | unsubscribe (topic : String)
  | publish (topic : String) (method : String)
  | keySet (topic : String)
  | keyDelete (topic : String)
  | storeSet (topic : String) (p : Pairing)
  | storeDelete (topic : String)
  | expirerSet (topic : String) (expiry : Nat)
  | expirerDel (topic : String)
deriving DecidableEq, Repr

/-- `FIVE_MINUTES` from `@walletconnect/time`, in seconds. -/
def FIVE_MINUTES : Nat := 300

/-- `THIRTY_DAYS` from `@walletconnect/time`, in seconds. -/
def THIRTY_DAYS : Nat := 2592000

/-- `calcExpiry(ttl)` from `@walletconnect/utils`: absolute expiry `now + ttl`
in seconds. -/
def calcExpiry (now ttl : Nat) : Nat := now + ttl

/-- `isExpired(expiry)` from `@walletconnect/utils`: true when the expiry has
passed, i.e. `expiry ≤ now`. -/
def isExpired (expiry now : Nat) : Bool := expiry ≤ now

/-- `isValidString(value, false)` from `@walletconnect/utils`: a string whose
trimmed form is non-empty, i.e. one containing some non-whitespace
character. -/
def isValidStringB (s : String) : Bool :=
  !(s.data.dropWhile Char.isWhitespace).isEmpty

/-- Equality of `Except` outcomes is decidable (needed to evaluate the
operations on concrete inputs). -/
instance {ε α : Type} [DecidableEq ε] [DecidableEq α] : DecidableEq (Except ε α) :=
  fun x y =>
    match x, y with
    | Except.ok a, Except.ok b =>
      if h : a = b then isTrue (by rw [h]) else isFalse (by simp [h])
    | Except.ok _, Except.error _ => isFalse (by simp)
    | Except.error _, Except.ok _ => isFalse (by simp)
    | Except.error e, Except.error f =>
      if h : e = f then isTrue (by rw [h]) else isFalse (by simp [h])

/-- Modelled from the spec: the pairing store (`src/controllers/store`, a
repository file outside the provided sources) is a persisted mapping from
topic to pairing record with `set` / `get` / `update` / `delete` / `keys` /
`values` / `getAll` operations.  We represent it as an association list with
unique keys. -/
abbrev PairingStore := List (String × Pairing)

/-- Modelled from the spec: `store.keys`. -/
def storeKeys (ps : PairingStore) : List String := ps.map Prod.fst

/-- Modelled from the spec: `store.get(topic)` (as a partial lookup). -/
def storeGet (ps : PairingStore) (topic : String) : Option Pairing :=
  (ps.find? fun e => e.1 = topic).map Prod.snd

/-- Modelled from the spec: `store.set(topic, pairing)` replaces any record
under `topic` and stores the new one. -/
def storeSet (ps : PairingStore) (topic : String) (p : Pairing) : PairingStore :=
  (ps.filter fun e => e.1 ≠ topic) ++ [(topic, p)]

/-- Modelled from the spec: `store.delete(topic, reason)` removes the record
under `topic`. -/
def storeDelete (ps : PairingStore) (topic : String) : PairingStore :=
  ps.filter fun e => e.1 ≠ topic

/-- The expirer schedule: absolute expirations keyed by topic. -/
abbrev ExpirerMap := List (String × Nat)

/-- `expirer.set(topic, expiry)`: (re)schedules the expiration for `topic`. -/
def expirerSet (em : ExpirerMap) (topic : String) (expiry : Nat) : ExpirerMap :=
  (em.filter fun e => e.1 ≠ topic) ++ [(topic, expiry)]

/-- `expirer.del(topic)`: cancels the expiration for `topic`. -/
def expirerDel (em : ExpirerMap) (topic : String) : ExpirerMap :=
  em.filter fun e => e.1 ≠ topic

/-- `expirer.get(topic)` (lookup of the scheduled expiry). -/
def expirerGet (em : ExpirerMap) (topic : String) : Option Nat :=
  (em.find? fun e => e.1 = topic).map Prod.snd

/-- The engine state: the `initialized` flag, the pairing store, the crypto
keychain (`crypto.setSymKey` / `deleteSymKey` / `hasKeys`, tracked by topic),
the relayer subscription set, the expirer schedule, and the
registered-methods set. -/
structure EngineState where
  initialized : Bool
  pairings : PairingStore
  keychain : List String
  subscriptions : List String
  expirer : ExpirerMap
  registeredMethods : List String
deriving DecidableEq, Repr

/-- Outcome of an engine operation: the state after the call (mutations are
kept even when the call throws), the ordered collaborator-call trace, and the
returned value or thrown error. -/
structure Outcome (α : Type) where
  state : EngineState
  trace : List Effect
  result : Except PairingError α
deriving Repr

/-- `deletePairing(topic, expirerHasDeleted)`: awaits
`relayer.unsubscribe(topic)` first, then runs `pairings.delete`,
`crypto.deleteSymKey` and (unless the expirer already fired)
`expirer.del` via `Promise.all`.  The trace serializes the
`Promise.all` batch in program order; the unsubscribe strictly precedes
the whole batch, which is the ordering the source comment insists on. -/
def deletePairing (s : EngineState) (topic : String) (expirerHasDeleted : Bool) :
    EngineState × List Effect :=
  let s1 := { s with subscriptions := s.subscriptions.filter fun t => t ≠ topic }
  let s2 := { s1 with
    pairings := storeDelete s1.pairings topic
    keychain := s1.keychain.filter fun t => t ≠ topic
    expirer := if expirerHasDeleted then s1.expirer else expirerDel s1.expirer topic }
  (s2, [Effect.unsubscribe topic, Effect.storeDelete topic, Effect.keyDelete topic]
        ++ if expirerHasDeleted then [] else [Effect.expirerDel topic])

/-- `isValidPairingTopic(topic)`: string-shape check, existence check, then
lazy expiry check — an expired pairing is deleted as a side effect of the
validation itself before `Expired` is thrown. -/
def isValidPairingTopic (s : EngineState) (now : Nat) (topic : String) : Outcome Unit :=
  if ¬ isValidStringB topic then
    ⟨s, [], Except.error PairingError.MissingOrInvalid⟩
  else if ¬ (storeKeys s.pairings).contains topic then
    ⟨s, [], Except.error PairingError.NoMatchingKey⟩
  else
    match storeGet s.pairings topic with
    | none => ⟨s, [], Except.error PairingError.NoMatchingKey⟩
    | some p =>
      if isExpired p.expiry now then
        let d := deletePairing s topic false
        ⟨d.1, d.2, Except.error PairingError.Expired⟩
      else
        ⟨s, [], Except.ok ()⟩

/-- `isValidPing(params)`: the params-shape check (`isValidParams`) is
guaranteed by typing in the embedding; the topic is then validated. -/
def isValidPing (s : EngineState) (now : Nat) (topic : String) : Outcome Unit :=
  isValidPairingTopic s now topic

/-- `isValidDisconnect(params)`: as `isValidPing`. -/
def isValidDisconnect (s : EngineState) (now : Nat) (topic : String) : Outcome Unit :=
  isValidPairingTopic s now topic

/-- `ping({topic})`: initialized check, topic validation, then — only when
the topic is (still) stored — `sendRequest(topic, "wc_pairingPing", {})` and
a wait for the correlated response.  The response correlation is an external
event and is not part of the state transition; the trace records the
outbound request. -/
def ping (s : EngineState) (now : Nat) (topic : String) : Outcome Unit :=
  if ¬ s.initialized then
    ⟨s, [], Except.error PairingError.NotInitialized⟩
  else
    let v := isValidPing s now topic
    match v.result with
    | Except.error e => ⟨v.state, v.trace, Except.error e⟩
    | Except.ok _ =>
      if (storeKeys v.state.pairings).contains topic then
        ⟨v.state, v.trace ++ [Effect.publish topic "wc_pairingPing"], Except.ok ()⟩
      else
        ⟨v.state, v.trace, Except.ok ()⟩

/-- `disconnect({topic})`: initialized check, topic validation, then — only
when the topic is (still) stored — `sendRequest(topic, "wc_pairingDelete",
USER_DISCONNECTED)` followed by `deletePairing(topic)`. -/
def disconnect (s : EngineState) (now : Nat) (topic : String) : Outcome Unit :=
  if ¬ s.initialized then
    ⟨s, [], Except.error PairingError.NotInitialized⟩
  else
    let v := isValidDisconnect s now topic
    match v.result with
    | Except.error e => ⟨v.state, v.trace, Except.error e⟩
    | Except.ok _ =>
      if (storeKeys v.state.pairings).contains topic then
        let d := deletePairing v.state topic false
        ⟨d.1, v.trace ++ [Effect.publish topic "wc_pairingDelete"] ++ d.2, Except.ok ()⟩
      else
        ⟨v.state, v.trace, Except.ok ()⟩

/-- A connection URI as consumed by `pair()`: the fields produced by
`parseUri` (external `@walletconnect/utils`), plus the verdict of the
external `isValidUrl` shape check. -/
structure Uri where
  topic : String
  symKey : String
  relayProtocol : String
  wellFormed : Bool
deriving DecidableEq, Repr

/-- `formatUri({protocol, version, topic, symKey, relay})` from
`@walletconnect/utils`: `protocol:topic@version?symKey=...&relay-protocol=...`. -/
def formatUri (protocol : String) (version : Nat) (topic symKey relayProtocol : String) :
    String :=
  s!"{protocol}:{topic}@{version}?symKey={symKey}&relay-protocol={relayProtocol}"

/-- `create()`: generates a symmetric key (parameter `symKey`), derives the
topic via `crypto.setSymKey(symKey)` (parameter `topic`, added to the
keychain), computes a 5-minute expiry, builds the URI, subscribes the
relayer, stores the inactive pairing and schedules the expiry.  The relay
protocol defaults to `"irn"` (`RELAYER_DEFAULT_PROTOCOL` unset).  Note the
source performs no `isInitialized()` check here and has no throw site. -/
def create (s : EngineState) (now : Nat) (symKey topic : String) :
    EngineState × List Effect × String × String :=
  let expiry := calcExpiry now FIVE_MINUTES
  let pairing : Pairing :=
    { topic := topic, relayProtocol := "irn", expiry := expiry, active := false
      peerMetadata := none }
  let uri := formatUri "wc" 2 topic symKey "irn"
  let s1 := { s with keychain := s.keychain ++ [topic] }
  let s2 := { s1 with subscriptions := s1.subscriptions ++ [topic] }
  let s3 := { s2 with pairings := storeSet s2.pairings topic pairing }
  let s4 := { s3 with expirer := expirerSet s3.expirer topic expiry }
  (s4,
   [Effect.keySet topic, Effect.subscribe topic, Effect.storeSet topic pairing,
    Effect.expirerSet topic expiry],
   topic, uri)

/-- `activate({topic})`: initialized check, then a 30-day expiry is computed,
the stored record is updated to `{ active: true, expiry }` (the store's
`update` fails with `NoMatchingKey` on an unknown topic, per the spec) and
the expirer entry is rescheduled. -/
def activate (s : EngineState) (now : Nat) (topic : String) : Outcome Unit :=
  if ¬ s.initialized then
    ⟨s, [], Except.error PairingError.NotInitialized⟩
  else
    let expiry := calcExpiry now THIRTY_DAYS
    match storeGet s.pairings topic with
    | none => ⟨s, [], Except.error PairingError.NoMatchingKey⟩
    | some p =>
      let p1 := { p with active := true, expiry := expiry }
      let s1 := { s with pairings := storeSet s.pairings topic p1 }
      let s2 := { s1 with expirer := expirerSet s1.expirer topic expiry }
      ⟨s2, [Effect.storeSet topic p1, Effect.expirerSet topic expiry], Except.ok ()⟩

/-- `pair({uri, activatePairing})`: initialized check, URI shape check,
parse, the two collision checks (`PairingAlreadyExists` against the store,
`KeychainAlreadyExists` against the crypto keychain), then store the
inactive 5-minute pairing, store the symmetric key, subscribe, schedule the
expiry, optionally `activate`, and return the locally-built pairing value. -/
def pair (s : EngineState) (now : Nat) (uri : Uri) (activatePairing : Bool) :
    Outcome Pairing :=
  if ¬ s.initialized then
    ⟨s, [], Except.error PairingError.NotInitialized⟩
  else if ¬ uri.wellFormed then
    ⟨s, [], Except.error PairingError.MissingOrInvalid⟩
  else if (storeKeys s.pairings).contains uri.topic then
    ⟨s, [], Except.error PairingError.PairingAlreadyExists⟩
  else if s.keychain.contains uri.topic then
    ⟨s, [], Except.error PairingError.KeychainAlreadyExists⟩
  else
    let expiry := calcExpiry now FIVE_MINUTES
    let pairing : Pairing :=
      { topic := uri.topic, relayProtocol := uri.relayProtocol, expiry := expiry
        active := false, peerMetadata := none }
    let s1 := { s with pairings := storeSet s.pairings uri.topic pairing }
    let s2 := { s1 with keychain := s1.keychain ++ [uri.topic] }
    let s3 := { s2 with subscriptions := s2.subscriptions ++ [uri.topic] }
    let s4 := { s3 with expirer := expirerSet s3.expirer uri.topic expiry }
    let tr :=
      [Effect.storeSet uri.topic pairing, Effect.keySet uri.topic,
       Effect.subscribe uri.topic, Effect.expirerSet uri.topic expiry]
    if activatePairing then
      let a := activate s4 now uri.topic
      match a.result with
      | Except.error e => ⟨a.state, tr ++ a.trace, Except.error e⟩
      | Except.ok _ => ⟨a.state, tr ++ a.trace, Except.ok pairing⟩
    else
      ⟨s4, tr, Except.ok pairing⟩

/-- `[...new Set([...registeredMethods, ...methods])]`: union preserving
first occurrence. -/
def dedupFirst (l : List String) : List String :=
  l.foldl (fun acc m => if acc.contains m then acc else acc ++ [m]) []

/-- `register({methods})`: initialized check, then the given methods are
unioned into the registered-methods set. -/
def register (s : EngineState) (methods : List String) : Outcome Unit :=
  if ¬ s.initialized then
    ⟨s, [], Except.error PairingError.NotInitialized⟩
  else
    ⟨{ s with registeredMethods := dedupFirst (s.registeredMethods ++ methods) },
     [], Except.ok ()⟩

/-- `updateExpiry({topic, expiry})`: initialized check, then a single-field
store update (failing with `NoMatchingKey` on an unknown topic, per the
spec's store contract). -/
def updateExpiry (s : EngineState) (topic : String) (expiry : Nat) : Outcome Unit :=
  if ¬ s.initialized then
    ⟨s, [], Except.error PairingError.NotInitialized⟩
  else
    match storeGet s.pairings topic with
    | none => ⟨s, [], Except.error PairingError.NoMatchingKey⟩
    | some p =>
      let p1 := { p with expiry := expiry }
      ⟨{ s with pairings := storeSet s.pairings topic p1 },
       [Effect.storeSet topic p1], Except.ok ()⟩

/-- `updateMetadata({topic, metadata})`: initialized check, then a
single-field store update of `peerMetadata`. -/
def updateMetadata (s : EngineState) (topic : String) (metadata : Metadata) :
    Outcome Unit :=
  if ¬ s.initialized then
    ⟨s, [], Except.error PairingError.NotInitialized⟩
  else
    match storeGet s.pairings topic with
    | none => ⟨s, [], Except.error PairingError.NoMatchingKey⟩
    | some p =>
      let p1 := { p with peerMetadata := some metadata }
      ⟨{ s with pairings := storeSet s.pairings topic p1 },
       [Effect.storeSet topic p1], Except.ok ()⟩

/-- `getPairings()`: initialized check, then `pairings.values`. -/
def getPairings (s : EngineState) : Outcome (List Pairing) :=
  if ¬ s.initialized then
    ⟨s, [], Except.error PairingError.NotInitialized⟩
  else
    ⟨s, [], Except.ok (s.pairings.map Prod.snd)⟩

/-- One deletion of the `cleanup()` sweep: `deletePairing(pairing.topic)`,
appending its collaborator calls to the accumulated trace. -/
def cleanupStep (acc : EngineState × List Effect) (p : Pairing) :
    EngineState × List Effect :=
  let d := deletePairing acc.1 p.topic false
  (d.1, acc.2 ++ d.2)

/-- `cleanup()`: deletes (via `deletePairing`) every stored pairing whose
expiry has already elapsed.  The source issues the deletions through
`Promise.all`; the trace serializes them in list order (the per-topic
ordering inside each `deletePairing` is interleaving-invariant). -/
def cleanup (s : EngineState) (now : Nat) : EngineState × List Effect :=
  let expired := (s.pairings.map Prod.snd).filter fun p => isExpired p.expiry now
  expired.foldl cleanupStep (s, [])

/-- `init()`: when not yet initialized, loads the persisted store (the
pre-state's `pairings` are the loaded records), runs the expiry sweep
`cleanup()`, attaches the relayer and expirer listeners, and sets the
`initialized` flag.  A second call is a no-op. -/
def init (s : EngineState) (now : Nat) : EngineState × List Effect :=
  if s.initialized then (s, [])
  else
    let c := cleanup s now
    ({ c.1 with initialized := true }, c.2)

/-- The expirer `expired`-event handler: if the topic is still stored, delete
the pairing with `expirerHasDeleted = true` (no redundant `expirer.del`) and
emit the local `pairing_expire` event. -/
def onExpirerEvent (s : EngineState) (topic : String) : EngineState × List Effect :=
  if (storeKeys s.pairings).contains topic then deletePairing s topic true
  else (s, [])

/-- `onPairingPingRequest(topic, payload)`: the source invokes
`isValidPing({topic})` *without* `await`, so its state effects (the lazy
expiry deletion) still run but its rejection is never seen by the
surrounding `try`/`catch`; the handler unconditionally proceeds to
`sendResult(id, topic, true)` and emits the local `pairing_ping` event.
The trace serializes the detached validation's effects before the result
publish. -/
def onPairingPingRequest (s : EngineState) (now : Nat) (topic : String) :
    Outcome Unit :=
  let v := isValidPing s now topic
  ⟨v.state, v.trace ++ [Effect.publish topic "wc_pairingPing:result"], Except.ok ()⟩

/-- `onPairingDeleteRequest(topic, payload)`: the source invokes
`isValidDisconnect({topic})` *without* `await` (same pattern as the ping
handler), then awaits `deletePairing(topic)` and emits the local
`pairing_delete` event. -/
def onPairingDeleteRequest (s : EngineState) (now : Nat) (topic : String) :
    Outcome Unit :=
  let v := isValidDisconnect s now topic
  let d := deletePairing v.state topic false
  ⟨d.1, v.trace ++ d.2, Except.ok ()⟩

/-- `onRelayEventRequest(event)`: drops requests on unknown topics, then
routes by method name; methods other than the two wire methods go to the
unknown-method handler (not modelled beyond its trace, which publishes an
error unless the method is registered). -/
def onRelayEventRequest (s : EngineState) (now : Nat) (topic method : String) :
    Outcome Unit :=
  if ¬ (storeKeys s.pairings).contains topic then
    ⟨s, [], Except.ok ()⟩
  else if method = "wc_pairingPing" then
    onPairingPingRequest s now topic
  else if method = "wc_pairingDelete" then
    onPairingDeleteRequest s now topic
  else if s.registeredMethods.contains method then
    ⟨s, [], Except.ok ()⟩
  else
    ⟨s, [Effect.publish topic "error:WC_METHOD_UNSUPPORTED"], Except.ok ()⟩

/-- The trace of `tr` never deletes the symmetric key of a topic before the
transport has been unsubscribed from that topic: every `keyDelete t` entry is
preceded (strictly earlier in the serialized collaborator-call order) by an
`unsubscribe t` entry. -/
def unsubBeforeKeyDel (tr : List Effect) : Prop :=
  ∀ (t : String) (i : Nat), tr.get? i = some (Effect.keyDelete t) →
    ∃ j, j < i ∧ tr.get? j = some (Effect.unsubscribe t)

/-- A concrete stored pairing used to exercise the operations. -/
def examplePairing : Pairing :=
  { topic := "t", relayProtocol := "irn", expiry := 100, active := false
    peerMetadata := none }

/-- An initialized engine holding `examplePairing` under topic `"t"`. -/
def exampleState : EngineState :=
  { initialized := true, pairings := [("t", examplePairing)], keychain := ["t"]
    subscriptions := ["t"], expirer := [("t", 100)], registeredMethods := [] }

/-- An initialized engine with an empty store. -/
def emptyInitState : EngineState :=
  { initialized := true, pairings := [], keychain := [], subscriptions := []
    expirer := [], registeredMethods := [] }

/-- An engine on which `init()` has not completed. -/
def uninitState : EngineState :=
  { initialized := false, pairings := [], keychain := [], subscriptions := []
    expirer := [], registeredMethods := [] }

/-- A concrete well-formed connection URI for topic `"u"`. -/
def exampleUri : Uri :=
  { topic := "u", symKey := "k", relayProtocol := "irn", wellFormed := true }

/-- A not-yet-initialized engine whose loaded store holds one stale pairing
(topic `"t"`, expiry 100) and one live pairing (topic `"u"`, expiry 1000). -/
def staleState : EngineState :=
  { initialized := false
    pairings := [("t", examplePairing), ("u", ⟨"u", "irn", 1000, false, none⟩)]
    keychain := ["t", "u"], subscriptions := ["t", "u"]
    expirer := [("t", 100), ("u", 1000)], registeredMethods := [] }

/-! Lookup lemmas for the keyed maps (store and expirer). -/

theorem find?_key_filter_ne {β : Type} (l : List (String × β)) (t : String) :
    (l.filter fun e => e.1 ≠ t).find? (fun e => e.1 = t) = none := by
  rw [List.find?_eq_none]
  intro x hx
  have h := (List.mem_filter.mp hx).2
  simp only [decide_eq_true_eq] at h ⊢
  exact h

theorem find?_key_set_self {β : Type} (l : List (String × β)) (t : String) (b : β) :
    (((l.filter fun e => e.1 ≠ t) ++ [(t, b)]).find? fun e => e.1 = t) = some (t, b) := by
  rw [List.find?_append, find?_key_filter_ne]
  simp

theorem storeGet_storeSet_self (ps : PairingStore) (t : String) (p : Pairing) :
    storeGet (storeSet ps t p) t = some p := by
  unfold storeGet storeSet
  rw [find?_key_set_self]
  rfl

theorem storeGet_storeDelete_self (ps : PairingStore) (t : String) :
    storeGet (storeDelete ps t) t = none := by
  unfold storeGet storeDelete
  rw [find?_key_filter_ne]
  rfl

theorem expirerGet_expirerSet_self (em : ExpirerMap) (t : String) (x : Nat) :
    expirerGet (expirerSet em t x) t = some x := by
  unfold expirerGet expirerSet
  rw [find?_key_set_self]
  rfl

theorem contains_storeKeys_iff (ps : PairingStore) (t : String) :
    (storeKeys ps).contains t = true ↔ ∃ p, (t, p) ∈ ps := by
  unfold storeKeys
  rw [show ∀ (l : List String) (a : String), l.contains a = l.elem a from fun _ _ => rfl,
    List.elem_iff]
  constructor
  · intro h
    obtain ⟨e, he, hfst⟩ := List.mem_map.mp h
    exact ⟨e.2, by rw [← hfst]; exact he⟩
  · rintro ⟨p, hp⟩
    exact List.mem_map.mpr ⟨(t, p), hp, rfl⟩

theorem contains_storeKeys_of_storeGet (ps : PairingStore) (t : String) (p : Pairing)
    (h : storeGet ps t = some p) : (storeKeys ps).contains t = true := by
  unfold storeGet at h
  cases hf : ps.find? (fun e => e.1 = t) with
  | none => rw [hf] at h; cases h
  | some e =>
    have hmem := List.mem_of_find?_eq_some hf
    have hkey : e.1 = t := by simpa using List.find?_some hf
    exact (contains_storeKeys_iff ps t).mpr ⟨e.2, by rw [← hkey]; exact hmem⟩

theorem contains_storeKeys_storeDelete (ps : PairingStore) (t : String) :
    (storeKeys (storeDelete ps t)).contains t = false := by
  by_contra h
  rw [Bool.not_eq_false] at h
  obtain ⟨p, hp⟩ := (contains_storeKeys_iff _ t).mp h
  have := (List.mem_filter.mp hp).2
  simp at this

/-! Trace-ordering lemmas: no symmetric-key deletion before the matching
transport unsubscribe. -/

theorem ubkd_nil : unsubBeforeKeyDel [] := by
  intro t i hi
  simp at hi

theorem ubkd_of_no_keyDelete (l : List Effect)
    (h : ∀ t, Effect.keyDelete t ∉ l) : unsubBeforeKeyDel l := by
  intro t i hi
  exact absurd (List.get?_mem hi) (h t)

theorem ubkd_append {l₁ l₂ : List Effect}
    (h₁ : unsubBeforeKeyDel l₁) (h₂ : unsubBeforeKeyDel l₂) :
    unsubBeforeKeyDel (l₁ ++ l₂) := by
  intro t i hi
  by_cases hlt : i < l₁.length
  · rw [List.get?_append hlt] at hi
    obtain ⟨j, hj, hget⟩ := h₁ t i hi
    exact ⟨j, hj, by rw [List.get?_append (lt_trans hj hlt)]; exact hget⟩
  · push_neg at hlt
    rw [List.get?_append_right hlt] at hi
    obtain ⟨j, hj, hget⟩ := h₂ t (i - l₁.length) hi
    refine ⟨l₁.length + j, by omega, ?_⟩
    rw [List.get?_append_right (by omega)]
    simpa [Nat.add_sub_cancel_left] using hget

theorem ubkd_cons_unsub (t : String) (l : List Effect)
    (h : ∀ t', Effect.keyDelete t' ∈ l → t' = t) :
    unsubBeforeKeyDel (Effect.unsubscribe t :: l) := by
  intro t' i hi
  cases i with
  | zero => simp [List.get?] at hi
  | succ n =>
    have hmem : Effect.keyDelete t' ∈ l := List.get?_mem (by simpa [List.get?] using hi)
    obtain rfl := h t' hmem
    exact ⟨0, Nat.succ_pos n, rfl⟩

theorem ubkd_deletePairing (s : EngineState) (t : String) (b : Bool) :
    unsubBeforeKeyDel (deletePairing s t b).2 := by
  apply ubkd_cons_unsub
  intro t' h
  cases b <;> simp_all

theorem ubkd_cleanupFold (l : List Pairing) :
    ∀ (s : EngineState) (tr : List Effect), unsubBeforeKeyDel tr →
      unsubBeforeKeyDel (l.foldl cleanupStep (s, tr)).2 := by
  induction l with
  | nil => intro s tr h; exact h
  | cons p l ih =>
    intro s tr h
    rw [List.foldl_cons]
    exact ih (cleanupStep (s, tr) p).1 (cleanupStep (s, tr) p).2
      (ubkd_append h (ubkd_deletePairing s p.topic false))

theorem ubkd_isValidPairingTopic (s : EngineState) (now : Nat) (topic : String) :
    unsubBeforeKeyDel (isValidPairingTopic s now topic).trace := by
  unfold isValidPairingTopic
  split
  · exact ubkd_nil
  split
  · exact ubkd_nil
  split
  · exact ubkd_nil
  split
  · exact ubkd_deletePairing s topic false
  · exact ubkd_nil

/-- C1 (amended): on an initialized engine, `ping({topic})` for a topic that
is not a key of the pairing store does not complete as a no-op success —
topic validation fails the call with `NoMatchingKey`; it does send no
request and leaves the store, keychain and expirer unchanged (the returned
state is the input state and the collaborator trace is empty). -/
theorem c1_ping_unknown_topic_fails_no_matching_key
    (s : EngineState) (now : Nat) (topic : String)
    (hinit : s.initialized = true)
    (hstr : isValidStringB topic = true)
    (habs : (storeKeys s.pairings).contains topic = false) :
    ping s now topic = ⟨s, [], Except.error PairingError.NoMatchingKey⟩ := by
  have habs' : topic ∉ storeKeys s.pairings := by simpa using habs
  unfold ping isValidPing isValidPairingTopic
  simp [hinit, hstr, habs']

/-- C1 counterexample: on a concrete initialized engine whose store is empty,
`ping({topic: "t"})` rejects with `NoMatchingKey` — it does not resolve as a
no-op success as the claim states. -/
theorem c1_counterexample :
    emptyInitState.initialized = true ∧
    (storeKeys emptyInitState.pairings).contains "t" = false ∧
    (ping emptyInitState 0 "t").result = Except.error PairingError.NoMatchingKey := by
  decide

/-- C1 witness: the amended theorem applied to the empty initialized engine. -/
theorem c1_witness :
    ping emptyInitState 0 "t" = ⟨emptyInitState, [], Except.error PairingError.NoMatchingKey⟩ :=
  c1_ping_unknown_topic_fails_no_matching_key emptyInitState 0 "t"
    (by decide) (by decide) (by decide)

/-- C2: every deletion path — `disconnect`, inbound `wc_pairingDelete`
handling, the expirer `expired` event, the startup sweep inside `init`, and
the lazy expiry deletion inside topic validation — orders the transport
unsubscribe of a topic before the symmetric-key delete of that topic:
in each collaborator-call trace, every `keyDelete t` is strictly preceded by
an `unsubscribe t`. -/
theorem c2_unsubscribe_precedes_key_delete
    (s : EngineState) (now : Nat) (topic : String) :
    unsubBeforeKeyDel (disconnect s now topic).trace ∧
    unsubBeforeKeyDel (onPairingDeleteRequest s now topic).trace ∧
    unsubBeforeKeyDel (onExpirerEvent s topic).2 ∧
    unsubBeforeKeyDel (init s now).2 ∧
    unsubBeforeKeyDel (isValidPairingTopic s now topic).trace := by
  refine ⟨?_, ?_, ?_, ?_, ?_⟩
  · unfold disconnect
    split
    · exact ubkd_nil
    · dsimp only
      split
      · exact ubkd_isValidPairingTopic s now topic
      · split
        · exact ubkd_append (ubkd_append (ubkd_isValidPairingTopic s now topic)
            (ubkd_of_no_keyDelete _ (by intro t h; simp at h)))
            (ubkd_deletePairing _ topic false)
        · exact ubkd_isValidPairingTopic s now topic
  · exact ubkd_append (ubkd_isValidPairingTopic s now topic)
      (ubkd_deletePairing _ topic false)
  · unfold onExpirerEvent
    split
    · exact ubkd_deletePairing s topic true
    · exact ubkd_nil
  · unfold init
    split
    · exact ubkd_nil
    · exact ubkd_cleanupFold _ s [] ubkd_nil
  · exact ubkd_isValidPairingTopic s now topic

/-- C3 counterexample: `create()` performs no initialization check — invoked
on an engine where `init()` has not completed, it proceeds, mutates the
store and calls the crypto provider, relayer and expirer, instead of
throwing `NotInitialized` before any side effect (its embedding has no error
outcome at all). -/
theorem c3_counterexample :
    uninitState.initialized = false ∧
    storeKeys (create uninitState 0 "k" "t").1.pairings = ["t"] ∧
    (create uninitState 0 "k" "t").2.1 =
      [Effect.keySet "t", Effect.subscribe "t",
       Effect.storeSet "t" ⟨"t", "irn", 300, false, none⟩,
       Effect.expirerSet "t" 300] := by
  decide

/-- C3 (amended): every public operation other than `init` and `create` —
pair, activate, register, updateExpiry, updateMetadata, getPairings, ping,
disconnect — invoked before `init()` has completed fails with
`NotInitialized` before any side effect (the state is returned unchanged and
no collaborator is called); `create` performs no initialization check at all
(see the counterexample). -/
theorem c3_not_initialized_guard
    (s : EngineState) (hinit : s.initialized = false)
    (now expiry : Nat) (topic : String) (uri : Uri) (act : Bool)
    (methods : List String) (md : Metadata) :
    pair s now uri act = ⟨s, [], Except.error PairingError.NotInitialized⟩ ∧
    activate s now topic = ⟨s, [], Except.error PairingError.NotInitialized⟩ ∧
    register s methods = ⟨s, [], Except.error PairingError.NotInitialized⟩ ∧
    updateExpiry s topic expiry = ⟨s, [], Except.error PairingError.NotInitialized⟩ ∧
    updateMetadata s topic md = ⟨s, [], Except.error PairingError.NotInitialized⟩ ∧
    getPairings s = ⟨s, [], Except.error PairingError.NotInitialized⟩ ∧
    ping s now topic = ⟨s, [], Except.error PairingError.NotInitialized⟩ ∧
    disconnect s now topic = ⟨s, [], Except.error PairingError.NotInitialized⟩ := by
  unfold pair activate register updateExpiry updateMetadata getPairings ping disconnect
  simp [hinit]

/-- C3 witness: the amended theorem applied to a concrete uninitialized
engine. -/
theorem c3_witness :
    uninitState.initialized = false ∧
    ping uninitState 0 "t" = ⟨uninitState, [], Except.error PairingError.NotInitialized⟩ ∧
    disconnect uninitState 0 "t" = ⟨uninitState, [], Except.error PairingError.NotInitialized⟩ :=
  ⟨by decide,
   (c3_not_initialized_guard uninitState (by decide) 0 0 "t" exampleUri false []
      ⟨"n", "d", "u", []⟩).2.2.2.2.2.2.1,
   (c3_not_initialized_guard uninitState (by decide) 0 0 "t" exampleUri false []
      ⟨"n", "d", "u", []⟩).2.2.2.2.2.2.2⟩

/-- C4: on an initialized engine, `pair({uri})` for a well-formed URI whose
topic is already a key of the pairing store fails with
`PairingAlreadyExists` and mutates nothing: the returned state is the input
state and no collaborator is called. -/
theorem c4_pair_existing_topic_fails
    (s : EngineState) (now : Nat) (uri : Uri) (act : Bool)
    (hinit : s.initialized = true)
    (hwf : uri.wellFormed = true)
    (hex : (storeKeys s.pairings).contains uri.topic = true) :
    pair s now uri act = ⟨s, [], Except.error PairingError.PairingAlreadyExists⟩ := by
  have hex' : uri.topic ∈ storeKeys s.pairings := by simpa using hex
  unfold pair
  simp [hinit, hwf, hex']

/-- C4 witness: pairing a URI for topic `"t"` on the engine already holding
topic `"t"`. -/
theorem c4_witness :
    pair exampleState 0 ⟨"t", "k", "irn", true⟩ false =
      ⟨exampleState, [], Except.error PairingError.PairingAlreadyExists⟩ :=
  c4_pair_existing_topic_fails exampleState 0 ⟨"t", "k", "irn", true⟩ false
    (by decide) (by decide) (by decide)

/-- C5: for a successful `create()` whose freshly generated symmetric key
derives a topic not colliding with a stored one (the hypothesis — the code
relies on the randomness of `generateRandomBytes32` for this), the returned
topic was absent from the store before the call, and immediately after the
call the store holds a record for it with `active = false` and expiry five
minutes from now, the relayer is subscribed to it, and the expirer holds an
entry for it with the same expiry. -/
theorem c5_create_postconditions
    (s : EngineState) (now : Nat) (symKey topic : String)
    (hfresh : (storeKeys s.pairings).contains topic = false) :
    (storeKeys s.pairings).contains topic = false ∧
    (create s now symKey topic).2.2.1 = topic ∧
    storeGet (create s now symKey topic).1.pairings topic =
      some ⟨topic, "irn", calcExpiry now FIVE_MINUTES, false, none⟩ ∧
    topic ∈ (create s now symKey topic).1.subscriptions ∧
    expirerGet (create s now symKey topic).1.expirer topic =
      some (calcExpiry now FIVE_MINUTES) := by
  refine ⟨hfresh, rfl, ?_, ?_, ?_⟩
  · simp [create, storeGet_storeSet_self]
  · simp [create]
  · simp [create, expirerGet_expirerSet_self]

/-- C5 witness: `create` on the empty initialized engine with derived topic
`"t"`. -/
theorem c5_witness :
    (storeKeys emptyInitState.pairings).contains "t" = false ∧
    (create emptyInitState 7 "k" "t").2.2.1 = "t" ∧
    storeGet (create emptyInitState 7 "k" "t").1.pairings "t" =
      some ⟨"t", "irn", calcExpiry 7 FIVE_MINUTES, false, none⟩ ∧
    "t" ∈ (create emptyInitState 7 "k" "t").1.subscriptions ∧
    expirerGet (create emptyInitState 7 "k" "t").1.expirer "t" =
      some (calcExpiry 7 FIVE_MINUTES) :=
  c5_create_postconditions emptyInitState 7 "k" "t" (by decide)

/-- C6: on an initialized engine, `activate({topic})` for a stored topic
succeeds, flips the stored record to `active = true` with expiry thirty days
from now, reschedules the expirer entry to that same expiry, and that new
expiry strictly exceeds the 5-minute expiry of a pairing created at any
earlier time. -/
theorem c6_activate_extends_and_marks_active
    (s : EngineState) (now : Nat) (topic : String) (p : Pairing)
    (hinit : s.initialized = true)
    (hget : storeGet s.pairings topic = some p) :
    (activate s now topic).result = Except.ok () ∧
    storeGet (activate s now topic).state.pairings topic =
      some { p with active := true, expiry := calcExpiry now THIRTY_DAYS } ∧
    expirerGet (activate s now topic).state.expirer topic =
      some (calcExpiry now THIRTY_DAYS) ∧
    ∀ created, created ≤ now →
      calcExpiry created FIVE_MINUTES < calcExpiry now THIRTY_DAYS := by
  refine ⟨?_, ?_, ?_, ?_⟩
  · simp [activate, hinit, hget]
  · simp [activate, hinit, hget, storeGet_storeSet_self]
  · simp [activate, hinit, hget, expirerGet_expirerSet_self]
  · intro created hc
    simp only [calcExpiry, FIVE_MINUTES, THIRTY_DAYS]
    omega

/-- C6 witness: activating the stored example pairing at time 50. -/
theorem c6_witness :
    (activate exampleState 50 "t").result = Except.ok () ∧
    storeGet (activate exampleState 50 "t").state.pairings "t" =
      some { examplePairing with active := true, expiry := calcExpiry 50 THIRTY_DAYS } ∧
    expirerGet (activate exampleState 50 "t").state.expirer "t" =
      some (calcExpiry 50 THIRTY_DAYS) ∧
    ∀ created, created ≤ 50 →
      calcExpiry created FIVE_MINUTES < calcExpiry 50 THIRTY_DAYS :=
  c6_activate_extends_and_marks_active exampleState 50 "t" examplePairing
    (by decide) (by decide)

theorem disconnect_unknown_topic (s : EngineState) (now : Nat) (topic : String)
    (hinit : s.initialized = true) (hstr : isValidStringB topic = true)
    (habs : (storeKeys s.pairings).contains topic = false) :
    disconnect s now topic = ⟨s, [], Except.error PairingError.NoMatchingKey⟩ := by
  have habs' : topic ∉ storeKeys s.pairings := by simpa using habs
  unfold disconnect isValidDisconnect isValidPairingTopic
  simp [hinit, hstr, habs']

theorem deletePairing_initialized (s : EngineState) (topic : String) (b : Bool) :
    (deletePairing s topic b).1.initialized = s.initialized := rfl

theorem deletePairing_pairings (s : EngineState) (topic : String) (b : Bool) :
    (deletePairing s topic b).1.pairings = storeDelete s.pairings topic := rfl

/-- C7 (amended): an expired stored topic makes `ping` and `disconnect`
delete the pairing during validation and fail with `Expired`; the inbound
ping/delete request handlers, however, invoke validation *without awaiting
it*, so the deletion side effect still runs but the `Expired` rejection never
reaches the handler: the ping handler still sends a success result and the
delete handler still deletes the pairing and reports success. -/
theorem c7_expired_topic_lazy_deletion
    (s : EngineState) (now : Nat) (topic : String) (p : Pairing)
    (hinit : s.initialized = true)
    (hstr : isValidStringB topic = true)
    (hget : storeGet s.pairings topic = some p)
    (hexp : isExpired p.expiry now = true) :
    ping s now topic =
      ⟨(deletePairing s topic false).1, (deletePairing s topic false).2,
        Except.error PairingError.Expired⟩ ∧
    disconnect s now topic =
      ⟨(deletePairing s topic false).1, (deletePairing s topic false).2,
        Except.error PairingError.Expired⟩ ∧
    onPairingPingRequest s now topic =
      ⟨(deletePairing s topic false).1,
        (deletePairing s topic false).2 ++ [Effect.publish topic "wc_pairingPing:result"],
        Except.ok ()⟩ ∧
    (onPairingDeleteRequest s now topic).result = Except.ok () ∧
    (storeKeys (onPairingDeleteRequest s now topic).state.pairings).contains topic =
      false := by
  have hmem : topic ∈ storeKeys s.pairings := by
    simpa using contains_storeKeys_of_storeGet _ _ _ hget
  refine ⟨?_, ?_, ?_, ?_, ?_⟩
  · unfold ping isValidPing isValidPairingTopic
    simp [hinit, hstr, hmem, hget, hexp]
  · unfold disconnect isValidDisconnect isValidPairingTopic
    simp [hinit, hstr, hmem, hget, hexp]
  · unfold onPairingPingRequest isValidPing isValidPairingTopic
    simp [hstr, hmem, hget, hexp]
  · rfl
  · unfold onPairingDeleteRequest isValidDisconnect isValidPairingTopic
    simp only [hstr, hmem, hget, hexp]
    simp [hstr, hmem, hget, hexp, deletePairing_pairings]
    simpa using contains_storeKeys_storeDelete (storeDelete s.pairings topic) topic

/-- C7 counterexample: on a concrete engine holding topic `"t"` whose stored
expiry (100) has passed at time 200, the inbound `wc_pairingPing` handler
does not fail with `Expired`: it reports success and sends a success result
(the detached validation still deleted the pairing first). -/
theorem c7_counterexample :
    (storeKeys exampleState.pairings).contains "t" = true ∧
    isExpired examplePairing.expiry 200 = true ∧
    (onPairingPingRequest exampleState 200 "t").result = Except.ok () ∧
    (onPairingPingRequest exampleState 200 "t").trace =
      [Effect.unsubscribe "t", Effect.storeDelete "t", Effect.keyDelete "t",
       Effect.expirerDel "t", Effect.publish "t" "wc_pairingPing:result"] := by
  decide

/-- C7 witness: the amended theorem applied to the example engine at a time
past the stored expiry. -/
theorem c7_witness :
    ping exampleState 200 "t" =
      ⟨(deletePairing exampleState "t" false).1, (deletePairing exampleState "t" false).2,
        Except.error PairingError.Expired⟩ ∧
    (onPairingDeleteRequest exampleState 200 "t").result = Except.ok () :=
  ⟨(c7_expired_topic_lazy_deletion exampleState 200 "t" examplePairing
      (by decide) (by decide) (by decide) (by decide)).1,
   (c7_expired_topic_lazy_deletion exampleState 200 "t" examplePairing
      (by decide) (by decide) (by decide) (by decide)).2.2.2.1⟩

/-- C8 (amended): a successful `disconnect({topic})` removes the pairing
from the store; a second `disconnect({topic})` is not a silent no-op — topic
validation fails it with `NoMatchingKey`, while indeed sending no request
and changing no state. -/
theorem c8_second_disconnect_fails
    (s : EngineState) (now now2 : Nat) (topic : String) (p : Pairing)
    (hinit : s.initialized = true)
    (hstr : isValidStringB topic = true)
    (hget : storeGet s.pairings topic = some p)
    (hexp : isExpired p.expiry now = false) :
    (disconnect s now topic).result = Except.ok () ∧
    (storeKeys (disconnect s now topic).state.pairings).contains topic = false ∧
    disconnect (disconnect s now topic).state now2 topic =
      ⟨(disconnect s now topic).state, [], Except.error PairingError.NoMatchingKey⟩ := by
  have hmem : topic ∈ storeKeys s.pairings := by
    simpa using contains_storeKeys_of_storeGet _ _ _ hget
  have hd : disconnect s now topic =
      ⟨(deletePairing s topic false).1,
        [Effect.publish topic "wc_pairingDelete"] ++ (deletePairing s topic false).2,
        Except.ok ()⟩ := by
    unfold disconnect isValidDisconnect isValidPairingTopic
    simp [hinit, hstr, hmem, hget, hexp]
  rw [hd]
  refine ⟨rfl, ?_, ?_⟩
  · simpa [deletePairing_pairings] using
      contains_storeKeys_storeDelete s.pairings topic
  · exact disconnect_unknown_topic _ now2 topic
      (by rw [deletePairing_initialized]; exact hinit) hstr
      (by simpa [deletePairing_pairings] using
        contains_storeKeys_storeDelete s.pairings topic)

/-- C8 counterexample: on the concrete example engine, the first
`disconnect({topic: "t"})` succeeds, and the repeated call rejects with
`NoMatchingKey` rather than resolving as a no-op. -/
theorem c8_counterexample :
    (disconnect exampleState 50 "t").result = Except.ok () ∧
    (disconnect (disconnect exampleState 50 "t").state 60 "t").result =
      Except.error PairingError.NoMatchingKey := by
  decide

/-- C8 witness: the amended theorem applied to the example engine before its
expiry. -/
theorem c8_witness :
    (disconnect exampleState 50 "t").result = Except.ok () ∧
    (storeKeys (disconnect exampleState 50 "t").state.pairings).contains "t" = false ∧
    disconnect (disconnect exampleState 50 "t").state 60 "t" =
      ⟨(disconnect exampleState 50 "t").state, [],
        Except.error PairingError.NoMatchingKey⟩ :=
  c8_second_disconnect_fails exampleState 50 60 "t" examplePairing
    (by decide) (by decide) (by decide) (by decide)

theorem cleanupFold_mem (l : List Pairing) :
    ∀ (s : EngineState) (tr : List Effect) (e : String × Pairing),
      e ∈ (l.foldl cleanupStep (s, tr)).1.pairings →
      e ∈ s.pairings ∧ ∀ p ∈ l, ¬ e.1 = p.topic := by
  induction l with
  | nil =>
    intro s tr e he
    exact ⟨he, by intro p hp; cases hp⟩
  | cons p l ih =>
    intro s tr e he
    rw [List.foldl_cons] at he
    obtain ⟨h1, h2⟩ := ih (cleanupStep (s, tr) p).1 (cleanupStep (s, tr) p).2 e he
    have h1' : e ∈ s.pairings.filter (fun x => x.1 ≠ p.topic) := h1
    have hm := List.mem_filter.mp h1'
    refine ⟨hm.1, ?_⟩
    intro q hq
    rcases List.mem_cons.mp hq with rfl | hq
    · simpa using hm.2
    · exact h2 q hq

/-- C9: after a completing `init()` (on a well-formed loaded store, where
each record is keyed by its own topic), no pairing whose stored expiry is
strictly in the past remains: `getPairings()` on the resulting engine
succeeds and returns no such record, because the startup sweep deleted every
elapsed pairing. -/
theorem c9_init_sweeps_expired (s : EngineState) (now : Nat)
    (hinit : s.initialized = false)
    (hwf : ∀ e ∈ s.pairings, e.2.topic = e.1) :
    (getPairings (init s now).1).result =
      Except.ok ((init s now).1.pairings.map Prod.snd) ∧
    ∀ p ∈ (init s now).1.pairings.map Prod.snd, ¬ p.expiry < now := by
  have hinit1 : (init s now).1.initialized = true := by
    simp [init, hinit]
  refine ⟨by simp [getPairings, hinit1], ?_⟩
  intro p hp
  obtain ⟨e, he, rfl⟩ := List.mem_map.mp hp
  intro hlt
  have he' : e ∈ (((s.pairings.map Prod.snd).filter
      fun q => isExpired q.expiry now).foldl cleanupStep (s, [])).1.pairings := by
    simp only [init, hinit, Bool.false_eq_true, if_false, cleanup] at he
    exact he
  obtain ⟨hmem, hall⟩ := cleanupFold_mem _ s [] e he'
  have hexp : isExpired e.2.expiry now = true := by
    simp only [isExpired, decide_eq_true_eq]
    omega
  have hval : e.2 ∈ (s.pairings.map Prod.snd).filter
      fun q => isExpired q.expiry now :=
    List.mem_filter.mpr ⟨List.mem_map_of_mem Prod.snd hmem, by simp [hexp]⟩
  exact hall e.2 hval (hwf e hmem).symm

/-- C9 witness: initializing the engine whose loaded store holds a stale and
a live pairing, at time 500. -/
theorem c9_witness :
    (getPairings (init staleState 500).1).result =
      Except.ok ((init staleState 500).1.pairings.map Prod.snd) ∧
    ∀ p ∈ (init staleState 500).1.pairings.map Prod.snd, ¬ p.expiry < 500 :=
  c9_init_sweeps_expired staleState 500 (by decide) (by decide)

/-- C10: a successful `pair({uri, activatePairing: true})` returns the
pre-activation pairing value — `active = false` with the 5-minute expiry —
even though the record stored under the topic has meanwhile been updated by
`activate` to `active = true` with the 30-day expiry. -/
theorem c10_pair_returns_preactivation_value
    (s : EngineState) (now : Nat) (uri : Uri)
    (hinit : s.initialized = true)
    (hwf : uri.wellFormed = true)
    (hnos : (storeKeys s.pairings).contains uri.topic = false)
    (hnok : s.keychain.contains uri.topic = false) :
    (pair s now uri true).result =
      Except.ok ⟨uri.topic, uri.relayProtocol, calcExpiry now FIVE_MINUTES, false, none⟩ ∧
    storeGet (pair s now uri true).state.pairings uri.topic =
      some ⟨uri.topic, uri.relayProtocol, calcExpiry now THIRTY_DAYS, true, none⟩ := by
  have hnos' : uri.topic ∉ storeKeys s.pairings := by simpa using hnos
  have hnok' : uri.topic ∉ s.keychain := by simpa using hnok
  unfold pair activate
  simp [hinit, hwf, hnos', hnok', storeGet_storeSet_self]

/-- C10 witness: pairing the example URI with activation on the empty
initialized engine at time 3. -/
theorem c10_witness :
    (pair emptyInitState 3 exampleUri true).result =
      Except.ok ⟨"u", "irn", calcExpiry 3 FIVE_MINUTES, false, none⟩ ∧
    storeGet (pair emptyInitState 3 exampleUri true).state.pairings "u" =
      some ⟨"u", "irn", calcExpiry 3 THIRTY_DAYS, true, none⟩ :=
  c10_pair_returns_preactivation_value emptyInitState 3 exampleUri
    (by decide) (by decide) (by decide) (by decide)

end WaltidSiwx
